import Mathlib

/-!
Verification of the untweeted pipeline (src/main.py) against its specification.

The development shallowly embeds the algorithmic parts of src/main.py:
the MARC record extractor (marc_xml_to_reports), the PDF page renderer
(pdf_to_image / get_images), the sentence/word text chunker (chunk_text),
the next-unposted selections (post_x_report lines 507-512, post_bsky_report
lines 316-334), and the top-level error collection of the __main__ block.
External collaborators (network, pymupdf, PIL, pysbd, the XML parser, the
platform SDKs) are modelled as abstract inputs, as the spec treats them.
Python strings are modelled as Lean strings (len = number of code points).
-/

namespace Untweeted

/-! ## Python string primitives used by src/main.py -/

/-- Characters dropped from both ends of a string. Models Python str.strip
variants (strip of whitespace, of ":", of "/"), which remove all leading and
trailing characters of the given set. -/
def dropAround (p : Char → Bool) (s : String) : String :=
  String.mk (((s.data.dropWhile p).reverse.dropWhile p).reverse)

/-- Python s.strip() with no argument: strip whitespace from both ends. -/
def stripWs (s : String) : String := dropAround (fun c => c.isWhitespace) s

/-- Python s.strip(":"). -/
def stripColons (s : String) : String := dropAround (fun c => c = ':') s

/-- Python s.strip("/"). -/
def stripSlashes (s : String) : String := dropAround (fun c => c = '/') s

/-- Python s.replace("[", "").replace("]", ""): remove all square brackets
(src/main.py line 99). -/
def removeBrackets (s : String) : String :=
  String.mk (s.data.filter (fun c => ¬ (c = '[' ∨ c = ']')))

/-- Boolean check that one character list starts with another. -/
def listStarts : List Char → List Char → Bool
  | [], _ => true
  | _ :: _, [] => false
  | a :: as, b :: bs => a = b && listStarts as bs

/-- Python needle in hay (substring containment on strings), as used at
src/main.py line 329: record["id"] in link. -/
def pyIn (needle hay : String) : Bool :=
  go needle.data hay.data
where
  go (n : List Char) : List Char → Bool
    | [] => listStarts n []
    | c :: cs => listStarts n (c :: cs) || go n cs

/-- Python s.endswith(post), via character lists (src/main.py lines 101, 237). -/
def pyEndsWith (s post : String) : Bool :=
  listStarts post.data.reverse s.data.reverse

/-- One run of Python str.split() with no argument (src/main.py line 222):
split on runs of whitespace, producing no empty words. The accumulator holds
the current word reversed. -/
def splitWsAux : List Char → List Char → List (List Char)
  | [], acc => if acc = [] then [] else [acc.reverse]
  | c :: cs, acc =>
    if c.isWhitespace then
      if acc = [] then splitWsAux cs [] else acc.reverse :: splitWsAux cs []
    else splitWsAux cs (c :: acc)

/-- Python sentence.split() (src/main.py line 222). -/
def pySplitWs (s : String) : List String :=
  (splitWsAux s.data []).map String.mk

/-! ## TextChunker: chunk_text (src/main.py lines 207-242)

pysbd sentence segmentation (line 211-214) is an external library; the
chunking loop is embedded over its output, a list of sentences. -/

/-- One iteration of the word-packing loop (src/main.py lines 225-233).
State: the chunks emitted so far and the current chunk being packed. -/
def packWord (maxLength : Nat) (st : List String × String) (word : String) :
    List String × String :=
  if ((st.2 ++ " " ++ word).length : Int) > (maxLength : Int) - 4 then
    (if st.2 ≠ "" then st.1 ++ [st.2 ++ "..."] else st.1, word)
  else
    (st.1, if st.2 ≠ "" then st.2 ++ " " ++ word else word)

/-- Closing of the word-packing state at the end of an oversized sentence
(src/main.py lines 235-240): a leftover current chunk is emitted, with a
leading "..." when the previous emitted chunk ended in "...". -/
def closeChunks (st : List String × String) : List String :=
  if st.2 ≠ "" then
    if (match st.1.getLast? with
        | some last => pyEndsWith last "..."
        | none => false) then
      st.1 ++ ["..." ++ st.2]
    else
      st.1 ++ [st.2]
  else st.1

/-- Processing of one sentence (src/main.py lines 216-240): a sentence that
fits becomes one chunk; otherwise its words are packed greedily and the
state is closed. -/
def chunkSentence (maxLength : Nat) (chunks : List String) (sentence : String) :
    List String :=
  if sentence.length ≤ maxLength then
    chunks ++ [sentence]
  else
    closeChunks ((pySplitWs sentence).foldl (packWord maxLength) (chunks, ""))

/-- chunk_text (src/main.py lines 207-242) over the sentence list produced by
the external pysbd segmenter. -/
def chunk_text (sentences : List String) (maxLength : Nat) : List String :=
  sentences.foldl (chunkSentence maxLength) []

/-- chunk_text(text, max_length) with the sentence segmenter (pysbd, an
external library) passed as a parameter. -/
def chunk_text_full (segment : String → List String) (text : String)
    (maxLength : Nat) : List String :=
  chunk_text (segment text) maxLength

/-- Modelled from the spec: locale-aware sentence-boundary detection (the
pysbd segmenter of src/main.py lines 211-214, an external library not in src).
Modelled minimally for inputs containing no abbreviation: a sentence boundary
lies after each period followed by a space, the separator staying with the
preceding sentence, so that the segments concatenate to the input. -/
def segAux : List Char → List Char → List String
  | [], acc => if acc = [] then [] else [String.mk acc.reverse]
  | '.' :: ' ' :: rest, acc => String.mk (acc.reverse ++ ['.', ' ']) :: segAux rest []
  | c :: rest, acc => segAux rest (c :: acc)

/-- Modelled from the spec: the sentence segmenter applied to a text. -/
def segment_model (text : String) : List String :=
  segAux text.data []

/-! ## RecordExtractor: marc_xml_to_reports (src/main.py lines 77-116)

ET.fromstring and the XPath queries are the external XML parser; a document is
modelled as its list of record elements in document order, each record element
by its tag-001 control field (element present?, text present?) and its
datafields (tag, then subfields as (code, optional text)). -/

/-- A subfield element of a datafield: its code attribute and its text
(Python element.text, None when the element has no text). -/
structure Subfield where
  code : String
  text : Option String
deriving Repr, DecidableEq

/-- A datafield element: its tag attribute and its subfields in document
order. -/
structure Datafield where
  tag : String
  subfields : List Subfield
deriving Repr, DecidableEq

/-- A record element. controlfield_001: none = no controlfield[@tag="001"]
element; some t = the element is present with text t (t = none models a
Python None text). -/
structure MarcRecord where
  controlfield_001 : Option (Option String) := some (some "")
  datafields : List Datafield := []
deriving Repr, DecidableEq

/-- The Python exception aborting the extraction: reading .text on the None
returned by record.find for a missing tag-001 controlfield (or .strip on a
None text) raises AttributeError — the error the spec's taxonomy names
MalformedRecordError. -/
inductive PyExn where
  | attributeError
deriving Repr, DecidableEq

/-- get_field(record, tag, code) (src/main.py lines 77-85), multiple=True:
all subfield texts under datafields of the given tag and code, in document
order, keeping only truthy texts, each stripped of ":" and of whitespace. -/
def get_field (r : MarcRecord) (tag code : String) : List String :=
  ((r.datafields.filter (fun d => d.tag = tag)).flatMap
      (fun d => (d.subfields.filter (fun sf => sf.code = code)).map Subfield.text)
    ).filterMap
    (fun t => match t with
      | some s => if s ≠ "" then some (stripWs (stripColons s)) else none
      | none => none)

/-- A normalized bibliographic record (the dict built at src/main.py lines
105-114). -/
structure Record where
  id : String := ""
  symbol : Option String := none
  title : String := ""
  date : Option String := none
  pages : Option String := none
  summary : List String := []
  keywords : List String := []
  pdf_url : String := ""
deriving Repr, DecidableEq

/-- Processing of one record element inside marc_xml_to_reports (src/main.py
lines 92-115): error = the record has no usable tag-001 controlfield (the
whole extraction aborts); ok none = no English PDF URL, the record is skipped;
ok (some rec) = the produced Record. -/
def report_of_record (r : MarcRecord) : Except PyExn (Option Record) :=
  match r.controlfield_001 with
  | none => Except.error PyExn.attributeError
  | some none => Except.error PyExn.attributeError
  | some (some t) =>
    match ((get_field r "856" "u").filter (fun url => pyEndsWith url "-EN.pdf")).head? with
    | none => Except.ok none
    | some u =>
      Except.ok (some
        { id := stripWs t
          symbol := (get_field r "191" "a").head?
          title := String.intercalate " – "
            ((get_field r "245" "a" ++ get_field r "245" "b" ++
                get_field r "245" "c").map
              (fun s => stripWs (stripSlashes (stripColons s))))
          date := (get_field r "269" "a").head?
          pages := ((get_field r "300" "a").head?).bind
            (fun p => if p ≠ "" then some (removeBrackets p) else none)
          summary := get_field r "500" "a"
          keywords := get_field r "650" "a"
          pdf_url := u })

/-- marc_xml_to_reports (src/main.py lines 88-116) over the document's record
elements: the first record with no usable tag-001 aborts the whole extraction;
records without a qualifying English PDF URL are skipped; the rest are
emitted in document order. -/
def marc_xml_to_reports : List MarcRecord → Except PyExn (List Record)
  | [] => Except.ok []
  | r :: rs =>
    match report_of_record r with
    | Except.error e => Except.error e
    | Except.ok head =>
      match marc_xml_to_reports rs with
      | Except.error e => Except.error e
      | Except.ok rest =>
        match head with
        | none => Except.ok rest
        | some rec => Except.ok (rec :: rest)

/-- A record element carrying an English PDF URL (and a French one, listed
first). -/
def mrecGood : MarcRecord :=
  { controlfield_001 := some (some " 100 ")
    datafields :=
      [ { tag := "245", subfields := [ { code := "a", text := some "Title :" } ] },
        { tag := "856", subfields :=
            [ { code := "u", text := some "http://x/doc-FR.pdf" },
              { code := "u", text := some "http://x/doc-EN.pdf" } ] } ] }

/-- A record element with no English PDF URL. -/
def mrecNoUrl : MarcRecord :=
  { controlfield_001 := some (some "200")
    datafields :=
      [ { tag := "856", subfields :=
            [ { code := "u", text := some "http://x/doc-FR.pdf" } ] } ] }

/-- A record element with no tag-001 controlfield. -/
def mrecBad : MarcRecord := { controlfield_001 := none, datafields := [] }

/-- The Record extracted from mrecGood. -/
def recGood100 : Record :=
  { id := "100", title := "Title", pdf_url := "http://x/doc-EN.pdf" }

/-! ## DedupFilter: next-unposted selections -/

/-- post_x_report lines 507-512: keep the records whose id is absent from the
published id list, and post the last of them (the oldest, the feed being
newest-first); none when every record is already posted. -/
def next_unposted (records : List Record) (posted : List String) : Option Record :=
  let unposted := records.filter (fun r => !(posted.contains r.id))
  unposted.getLast?

/-- post_bsky_report lines 328-330: a record counts as posted when its id
occurs as a substring (Python in on strings) of any link collected from the
published feed. -/
def bsky_unposted (records : List Record) (links : List String) : List Record :=
  records.filter (fun r => !(links.any (fun link => pyIn r.id link)))

/-! ## ImageRenderer: pdf_to_image / get_images (src/main.py lines 150-204)

pymupdf rasterization and PIL JPEG encoding are external libraries: a page is
modelled by its encoder, an arbitrary function from the integer quality to the
produced byte string; a document by its page count and, per page index, the
outcome of doc[page].get_pixmap + PilImage.open (none models a raised
exception, e.g. an out-of-range page index). -/

/-- A rasterized page: save q models img.save(buf, format="JPEG", quality=q,
optimize=True), the byte string the external encoder produces at quality q. -/
structure Page where
  save : Int → List Nat

/-- An opened pymupdf document. -/
structure Doc where
  page_count : Nat
  pages : Nat → Option Page

/-- The re-encoding while-loop of pdf_to_image (src/main.py lines 165-169),
with explicit fuel: while the buffer exceeds 950,000 bytes, re-encode at the
current quality and then lower the quality by 10. The source loop has no
bound and need not terminate; none means it has not finished within fuel
iterations. -/
def compress (p : Page) : Nat → Int → List Nat → Option (List Nat)
  | 0, _, buf => if 950000 < buf.length then none else some buf
  | fuel + 1, quality, buf =>
    if 950000 < buf.length then compress p fuel (quality - 10) (p.save quality)
    else some buf

/-- pdf_to_image (src/main.py lines 150-174): none = the while loop did not
terminate within the fuel; some none = the Python function returns None (a
zero-page document, or an exception caught by the try/except); some (some b)
= it returns the byte string b. The initial buffer is the encoding at
quality 100 (line 163), and the loop enters with quality still 100. -/
def pdf_to_image (doc : Doc) (page : Nat) (fuel : Nat) : Option (Option (List Nat)) :=
  if doc.page_count = 0 then some none
  else
    match doc.pages page with
    | none => some none
    | some p =>
      match compress p fuel 100 (p.save 100) with
      | none => none
      | some buf => some (some buf)

/-- The per-page stage of get_images (src/main.py line 201): one rendering
outcome per requested page index. -/
def render_pages (doc : Doc) (fuel : Nat) (page_nrs : List Nat) :
    List (Option (Option (List Nat))) :=
  page_nrs.map (fun p => pdf_to_image doc p fuel)

/-- Sequencing of the per-page outcomes: none when any page's loop failed to
terminate within the fuel (a Python list comprehension evaluates every
element; a nonterminating element makes the whole comprehension
nonterminating). -/
def seqOpt {α : Type} : List (Option α) → Option (List α)
  | [] => some []
  | none :: _ => none
  | some a :: rest => (seqOpt rest).map (fun l => a :: l)

/-- get_images (src/main.py lines 194-204) from the opened document onward
(the HTTP fetch is an external collaborator): render each requested page,
then drop the None results (line 202). none = some page's encoding loop did
not terminate within the fuel. -/
def get_images (doc : Doc) (fuel : Nat) (page_nrs : List Nat) :
    Option (List (List Nat)) :=
  (seqOpt (render_pages doc fuel page_nrs)).map (fun imgs => imgs.filterMap id)

/-- A zero-page document. -/
def docZero : Doc := { page_count := 0, pages := fun _ => none }

/-- A one-page document whose page encodes to the empty byte string at every
quality. -/
def docOne : Doc := { page_count := 1, pages := fun _ => some { save := fun _ => [] } }

/-- A page whose encoder produces 950,001 bytes at every quality: the
re-encoded buffer never gets under the 950,000-byte ceiling. -/
def pBig : Page := { save := fun _ => List.replicate 950001 0 }

/-! ## The __main__ block (src/main.py lines 637-653)

The four posting calls are external effects; each is modelled by its outcome,
ok () or error e. -/

/-- The exception classes relevant to the __main__ handlers. -/
inductive Exn where
  | tooManyRequests
  | forbidden
  | other (msg : String)
deriving Repr, DecidableEq

/-- The x try-block's first except clause (line 648): tweepy TooManyRequests
and Forbidden are printed and swallowed. The bsky try-block has no such
clause. -/
def tolerated_on_x : Exn → Bool
  | Exn.tooManyRequests => true
  | Exn.forbidden => true
  | Exn.other _ => false

/-- Python semantics of two statements inside one try block: the second call
starts only when the first returned; the block's exception, if any, is the
first one raised. Returns the calls started (by name) and the exception
leaving the block body. -/
def try_two (name1 name2 : String) (r1 r2 : Except Exn Unit) :
    List String × Option Exn :=
  match r1 with
  | Except.error e => ([name1], some e)
  | Except.ok _ =>
    match r2 with
    | Except.error e => ([name1, name2], some e)
    | Except.ok _ => ([name1, name2], none)

/-- Result of the tail of __main__: which posting calls started, the
collected exceptions list, and the exception finally re-raised (line 652-653
raises the first collected exception). -/
structure MainRun where
  calls : List String
  exceptions : List Exn
  raised : Option Exn
deriving Repr, DecidableEq

/-- The two try/except statements and the final re-raise loop of __main__
(src/main.py lines 637-653), over the outcomes of the four posting calls:
the bsky block catches every exception and collects it; the x block swallows
TooManyRequests/Forbidden and collects any other exception; afterwards the
first collected exception, if any, is re-raised. -/
def run_main (br bs xr xs : Except Exn Unit) : MainRun :=
  let bsky := try_two "post_bsky_report" "post_bsky_resolution" br bs
  let x := try_two "post_x_report" "post_x_resolution" xr xs
  let exceptions :=
    (match bsky.2 with
      | some e => [e]
      | none => []) ++
    (match x.2 with
      | some e => if tolerated_on_x e then [] else [e]
      | none => [])
  { calls := bsky.1 ++ x.1
    exceptions := exceptions
    raised := exceptions.head? }

/-! ## Helper lemmas -/

theorem listStarts_ne_nil {c : Char} {cs l : List Char}
    (h : listStarts (c :: cs) l = true) : l ≠ [] := by
  cases l with
  | nil => simp [listStarts] at h
  | cons b bs => simp

theorem pyEndsWith_EN_ne_empty {s : String} (h : pyEndsWith s "-EN.pdf" = true) :
    s ≠ "" := by
  intro hs
  subst hs
  simp [pyEndsWith, listStarts] at h

/-! ## Claims about the text chunker -/

theorem packWord_inv {m : Nat} {w : String} {st : List String × String}
    (hw : w.length + 4 ≤ m)
    (h1 : ∀ c ∈ st.1, c.length ≤ m) (h2 : st.2 = "" ∨ st.2.length + 4 ≤ m) :
    (∀ c ∈ (packWord m st w).1, c.length ≤ m) ∧
    ((packWord m st w).2 = "" ∨ (packWord m st w).2.length + 4 ≤ m) := by
  have hlen3 : (st.2 ++ " " ++ w).length = st.2.length + 1 + w.length := by
    have hsp : (" " : String).length = 1 := by decide
    rw [String.length_append, String.length_append, hsp]
  have hdots : ("..." : String).length = 3 := by decide
  unfold packWord
  split
  · refine ⟨?_, Or.inr hw⟩
    intro c hc
    dsimp only at hc
    split at hc
    · rcases List.mem_append.1 hc with h3 | h3
      · exact h1 c h3
      · rename_i hne
        rcases List.mem_singleton.1 h3 with rfl
        rcases h2 with he | hl
        · exact absurd he hne
        · rw [String.length_append, hdots]
          omega
    · exact h1 c hc
  · rename_i hov
    refine ⟨h1, ?_⟩
    have hle : st.2.length + 1 + w.length + 4 ≤ m := by
      rw [hlen3] at hov
      omega
    dsimp only
    split
    · right
      rw [hlen3]
      omega
    · exact Or.inr hw

theorem foldl_pack_inv {m : Nat} :
    ∀ (words : List String) (st : List String × String),
      (∀ w ∈ words, w.length + 4 ≤ m) →
      (∀ c ∈ st.1, c.length ≤ m) → (st.2 = "" ∨ st.2.length + 4 ≤ m) →
      (∀ c ∈ (words.foldl (packWord m) st).1, c.length ≤ m) ∧
      ((words.foldl (packWord m) st).2 = "" ∨
        (words.foldl (packWord m) st).2.length + 4 ≤ m) := by
  intro words
  induction words with
  | nil => exact fun st _ h1 h2 => ⟨h1, h2⟩
  | cons w ws ih =>
    intro st hall h1 h2
    rw [List.foldl_cons]
    have hstep := packWord_inv (hall w (by simp)) h1 h2
    exact ih _ (fun x hx => hall x (by simp [hx])) hstep.1 hstep.2

theorem closeChunks_inv {m : Nat} {st : List String × String}
    (h1 : ∀ c ∈ st.1, c.length ≤ m) (h2 : st.2 = "" ∨ st.2.length + 4 ≤ m) :
    ∀ c ∈ closeChunks st, c.length ≤ m := by
  have hdots : ("..." : String).length = 3 := by decide
  intro c hc
  unfold closeChunks at hc
  split at hc
  · rename_i hne
    rcases h2 with he | hl
    · exact absurd he hne
    · split at hc
      · rcases List.mem_append.1 hc with h3 | h3
        · exact h1 c h3
        · rcases List.mem_singleton.1 h3 with rfl
          rw [String.length_append, hdots]
          omega
      · rcases List.mem_append.1 hc with h3 | h3
        · exact h1 c h3
        · rcases List.mem_singleton.1 h3 with rfl
          omega
  · exact h1 c hc

theorem chunkSentence_inv {m : Nat} {chunks : List String} {sentence : String}
    (hw : ∀ w ∈ pySplitWs sentence, w.length + 4 ≤ m)
    (hc : ∀ c ∈ chunks, c.length ≤ m) :
    ∀ c ∈ chunkSentence m chunks sentence, c.length ≤ m := by
  intro c hcmem
  unfold chunkSentence at hcmem
  split at hcmem
  · rename_i hfit
    rcases List.mem_append.1 hcmem with h3 | h3
    · exact hc c h3
    · rcases List.mem_singleton.1 h3 with rfl
      exact hfit
  · have hst := foldl_pack_inv (pySplitWs sentence) (chunks, "") hw hc (Or.inl rfl)
    exact closeChunks_inv hst.1 hst.2 c hcmem

theorem chunk_text_bound_aux {m : Nat} :
    ∀ (sentences : List String) (chunks : List String),
      (∀ s ∈ sentences, ∀ w ∈ pySplitWs s, w.length + 4 ≤ m) →
      (∀ c ∈ chunks, c.length ≤ m) →
      ∀ c ∈ sentences.foldl (chunkSentence m) chunks, c.length ≤ m := by
  intro sentences
  induction sentences with
  | nil => exact fun chunks _ hc => hc
  | cons s rest ih =>
    intro chunks hall hc
    rw [List.foldl_cons]
    exact ih _ (fun x hx => hall x (by simp [hx]))
      (chunkSentence_inv (hall s (by simp)) hc)

/-- Claim C1 counterexample: a text consisting of a single 12-character word,
chunked with maxLength 5, is returned as a single chunk of length 12 > 5
(pysbd returns a text with no sentence boundary as the one sentence). -/
theorem claim_C1_counterexample :
    chunk_text ["aaaaaaaaaaaa"] 5 = ["aaaaaaaaaaaa"] ∧
    5 < ("aaaaaaaaaaaa" : String).length := by
  exact ⟨by decide, by decide⟩

/-- Claim C1 (amended): every chunk returned by chunk_text has length at most
maxLength, provided every whitespace-separated word of every sentence has
length at most maxLength - 4; a single longer word is emitted as its own
chunk (with possible ellipsis affixes) and may exceed the budget, as the
spec's edge case states. -/
theorem claim_C1_chunk_length (sentences : List String) (m : Nat)
    (hall : ∀ s ∈ sentences, ∀ w ∈ pySplitWs s, w.length + 4 ≤ m) :
    ∀ c ∈ chunk_text sentences m, c.length ≤ m := by
  unfold chunk_text
  exact chunk_text_bound_aux sentences [] hall (by simp)

/-- Witness for claim C1 (amended): a two-sentence text with small words at
maxLength 20. -/
theorem claim_C1_witness :
    (∀ s ∈ ["one two three four five six seven eight nine ten.", "Short."],
      ∀ w ∈ pySplitWs s, w.length + 4 ≤ 20) ∧
    (∀ c ∈ chunk_text ["one two three four five six seven eight nine ten.", "Short."] 20,
      c.length ≤ 20) :=
  ⟨by decide,
    claim_C1_chunk_length
      ["one two three four five six seven eight nine ten.", "Short."] 20 (by decide)⟩

theorem chunkSentence_fit {m : Nat} {chunks : List String} {s : String}
    (h : s.length ≤ m) : chunkSentence m chunks s = chunks ++ [s] := by
  unfold chunkSentence
  rw [if_pos h]

theorem chunk_text_all_fit {m : Nat} :
    ∀ (sentences : List String) (init : List String),
      (∀ s ∈ sentences, s.length ≤ m) →
      sentences.foldl (chunkSentence m) init = init ++ sentences := by
  intro sentences
  induction sentences with
  | nil => intro init _; simp
  | cons s rest ih =>
    intro init hall
    rw [List.foldl_cons, chunkSentence_fit (hall s (by simp)),
      ih _ (fun x hx => hall x (by simp [hx]))]
    simp

/-- Claim C8 counterexample: "Hi. Ok." is 7 characters, far below maxLength
300, yet chunk_text returns the two segmented sentences, not the one-element
list holding the text unchanged. -/
theorem claim_C8_counterexample :
    ("Hi. Ok." : String).length ≤ 300 ∧
    segment_model "Hi. Ok." = ["Hi. ", "Ok."] ∧
    chunk_text_full segment_model "Hi. Ok." 300 = ["Hi. ", "Ok."] ∧
    chunk_text_full segment_model "Hi. Ok." 300 ≠ ["Hi. Ok."] :=
  ⟨by decide, by decide, by decide, by decide⟩

/-- Claim C8 (amended): on a short text (length at most maxLength) chunk_text
returns the segmenter's sentence list unchanged, each sentence being a chunk;
this equals [text] exactly when the segmenter returns the whole text as one
sentence (e.g. a single-sentence text), while a short multi-sentence text
yields its list of sentences instead. -/
theorem claim_C8_idempotent_on_sentences (segment : String → List String)
    (text : String) (n : Nat)
    (hseg : ∀ s ∈ segment text, s.length ≤ text.length)
    (hlen : text.length ≤ n) :
    chunk_text_full segment text n = segment text ∧
    (segment text = [text] → chunk_text_full segment text n = [text]) := by
  have h1 : chunk_text_full segment text n = segment text := by
    unfold chunk_text_full chunk_text
    simpa using chunk_text_all_fit (segment text) []
      (fun s hs => le_trans (hseg s hs) hlen)
  exact ⟨h1, fun he => by rw [h1, he]⟩

/-- Witness for claim C8 (amended): a single-sentence text, where the
idempotence equation [text] holds. -/
theorem claim_C8_witness :
    (∀ s ∈ segment_model "Hello there", s.length ≤ ("Hello there" : String).length) ∧
    ("Hello there" : String).length ≤ 300 ∧
    chunk_text_full segment_model "Hello there" 300 = segment_model "Hello there" ∧
    (segment_model "Hello there" = ["Hello there"] →
      chunk_text_full segment_model "Hello there" 300 = ["Hello there"]) :=
  ⟨by decide, by decide,
    (claim_C8_idempotent_on_sentences segment_model "Hello there" 300
      (by decide) (by decide)).1,
    (claim_C8_idempotent_on_sentences segment_model "Hello there" 300
      (by decide) (by decide)).2⟩

/-! ## Claims about the record extractor -/

theorem report_of_record_pdf_url {r : MarcRecord} {rec : Record}
    (h : report_of_record r = Except.ok (some rec)) :
    rec.pdf_url ≠ "" ∧ pyEndsWith rec.pdf_url "-EN.pdf" = true := by
  unfold report_of_record at h
  split at h
  · exact absurd h (by simp)
  · exact absurd h (by simp)
  · split at h
    · exact absurd h (by simp)
    · rename_i u hu
      simp only [Except.ok.injEq, Option.some.injEq] at h
      subst h
      have hmem : u ∈ (get_field r "856" "u").filter
          (fun url => pyEndsWith url "-EN.pdf") :=
        List.mem_of_mem_head? (Option.mem_def.2 hu)
      have hp := (List.mem_filter.1 hmem).2
      exact ⟨pyEndsWith_EN_ne_empty hp, hp⟩

theorem marc_reports_pdf_url :
    ∀ (recs : List MarcRecord) (out : List Record),
      marc_xml_to_reports recs = Except.ok out →
      ∀ r ∈ out, r.pdf_url ≠ "" ∧ pyEndsWith r.pdf_url "-EN.pdf" = true := by
  intro recs
  induction recs with
  | nil =>
    intro out h r hr
    simp only [marc_xml_to_reports, Except.ok.injEq] at h
    subst h
    cases hr
  | cons a rs ih =>
    intro out h r hr
    cases hh : report_of_record a with
    | error e => simp [marc_xml_to_reports, hh] at h
    | ok head =>
      cases hm : marc_xml_to_reports rs with
      | error e => simp [marc_xml_to_reports, hh, hm] at h
      | ok rest =>
        cases head with
        | none =>
          simp only [marc_xml_to_reports, hh, hm, Except.ok.injEq] at h
          subst h
          exact ih rest hm r hr
        | some rec0 =>
          simp only [marc_xml_to_reports, hh, hm, Except.ok.injEq] at h
          subst h
          rcases List.mem_cons.1 hr with h1 | h1
          · subst h1
            exact report_of_record_pdf_url hh
          · exact ih rest hm r h1

theorem marc_reports_skip {rec : MarcRecord} {t : String}
    (recs : List MarcRecord)
    (hid : rec.controlfield_001 = some (some t))
    (hfilter : (get_field rec "856" "u").filter
        (fun url => pyEndsWith url "-EN.pdf") = []) :
    marc_xml_to_reports (rec :: recs) = marc_xml_to_reports recs := by
  have hrep : report_of_record rec = Except.ok none := by
    simp [report_of_record, hid, hfilter]
  cases hm : marc_xml_to_reports recs with
  | error e => simp [marc_xml_to_reports, hrep, hm]
  | ok l => simp [marc_xml_to_reports, hrep, hm]

/-- Claim C4: every Record in the extractor's output has a non-empty pdf_url
ending in "-EN.pdf"; a record element with no qualifying URL is excluded from
the output entirely (the extraction of the remaining elements is unchanged)
rather than emitted without a URL. -/
theorem claim_C4_pdf_url_invariant :
    (∀ (recs : List MarcRecord) (out : List Record),
      marc_xml_to_reports recs = Except.ok out →
      ∀ r ∈ out, r.pdf_url ≠ "" ∧ pyEndsWith r.pdf_url "-EN.pdf" = true) ∧
    (∀ (rec : MarcRecord) (recs : List MarcRecord) (t : String),
      rec.controlfield_001 = some (some t) →
      (get_field rec "856" "u").filter (fun url => pyEndsWith url "-EN.pdf") = [] →
      marc_xml_to_reports (rec :: recs) = marc_xml_to_reports recs) :=
  ⟨marc_reports_pdf_url,
    fun _ recs _ hid hfilter => marc_reports_skip recs hid hfilter⟩

/-- Witness for claim C4: a document with one English-URL record and one
record with only a French URL extracts to exactly the first record, whose
pdf_url carries the English suffix; dropping the URL-less record leaves the
extraction unchanged. -/
theorem claim_C4_witness :
    marc_xml_to_reports [mrecGood, mrecNoUrl] = Except.ok [recGood100] ∧
    (∀ r ∈ [recGood100],
      r.pdf_url ≠ "" ∧ pyEndsWith r.pdf_url "-EN.pdf" = true) ∧
    marc_xml_to_reports [mrecNoUrl] = marc_xml_to_reports [] :=
  ⟨rfl,
    fun r hr => claim_C4_pdf_url_invariant.1 [mrecGood, mrecNoUrl] _ rfl r hr,
    claim_C4_pdf_url_invariant.2 mrecNoUrl [] "200" rfl rfl⟩

/-- Claim C5: an input document containing a record element with no tag-001
control field makes the whole extraction fail with an error (the Python
AttributeError raised on line 94, which the spec's taxonomy names
MalformedRecordError): no partial result is returned. -/
theorem claim_C5_missing_id_aborts :
    ∀ (recs : List MarcRecord), (∃ r ∈ recs, r.controlfield_001 = none) →
      ∃ e, marc_xml_to_reports recs = Except.error e := by
  intro recs
  induction recs with
  | nil =>
    rintro ⟨r, hr, _⟩
    cases hr
  | cons a rs ih =>
    rintro ⟨r, hr, hnone⟩
    rcases List.mem_cons.1 hr with h1 | h1
    · subst h1
      refine ⟨PyExn.attributeError, ?_⟩
      have hrep : report_of_record r = Except.error PyExn.attributeError := by
        simp [report_of_record, hnone]
      simp [marc_xml_to_reports, hrep]
    · obtain ⟨e, he⟩ := ih ⟨r, h1, hnone⟩
      cases hh : report_of_record a with
      | error e2 => exact ⟨e2, by simp [marc_xml_to_reports, hh]⟩
      | ok head => exact ⟨e, by simp [marc_xml_to_reports, hh, he]⟩

/-- Witness for claim C5: a one-record document whose record lacks the tag-001
controlfield. -/
theorem claim_C5_witness :
    (∃ r ∈ [mrecBad], r.controlfield_001 = none) ∧
    (∃ e, marc_xml_to_reports [mrecBad] = Except.error e) :=
  ⟨⟨mrecBad, by simp, rfl⟩,
    claim_C5_missing_id_aborts [mrecBad] ⟨mrecBad, by simp, rfl⟩⟩

/-! ## Claims about the dedup selections -/

/-- Claim C3: the next-unposted selection of post_x_report keeps exactly the
candidates whose id is absent from the published ids, returns the last
element of the filtered list (the oldest unposted candidate, the feed being
newest-first), and returns nothing when the filtered list is empty; for
candidates [id3, id2, id1] with published = {id1} it returns the record with
id2. -/
theorem claim_C3_next_unposted :
    (∀ (records : List Record) (posted : List String),
      next_unposted records posted
        = (records.filter (fun r => !(posted.contains r.id))).getLast?) ∧
    (∀ (records : List Record) (posted : List String),
      (next_unposted records posted = none ↔
        records.filter (fun r => !(posted.contains r.id)) = [])) ∧
    (next_unposted [{ id := "id3" }, { id := "id2" }, { id := "id1" }]
        ["id1"]).map Record.id = some "id2" := by
  refine ⟨fun records posted => rfl, fun records posted => ?_, rfl⟩
  simp [next_unposted, List.getLast?_eq_none_iff]

/-- Claim C10: in post_bsky_report, a record is treated as already posted
whenever its id occurs as a substring of any link of the published feed; in
particular a record with id "123", never posted, is skipped because "123" is
a substring of another record's published link (the link of record 1234). -/
theorem claim_C10_bsky_substring_dedup :
    (∀ (records : List Record) (links : List String) (r : Record),
      r ∈ bsky_unposted records links ↔
        r ∈ records ∧ ∀ link ∈ links, pyIn r.id link = false) ∧
    (pyIn "123" "https://digitallibrary.un.org/record/1234?ln=en&v=pdf" = true ∧
      ("123" : String) ≠ "1234" ∧
      bsky_unposted [{ id := "123" }]
        ["https://digitallibrary.un.org/record/1234?ln=en&v=pdf"] = []) := by
  constructor
  · intro records links r
    simp [bsky_unposted, List.mem_filter, List.any_eq_true]
  · exact ⟨rfl, by decide, rfl⟩

/-! ## Claim about the __main__ error collection -/

/-- Claim C9: in the top-level run, a failure on the first platform still
lets the second platform be attempted; exceptions outside the tolerated set
(TooManyRequests/Forbidden on the x block) are collected during both
platform attempts, and the re-raise happens only after both platforms, as
the head of the collected list. -/
theorem claim_C9_platform_isolation :
    ∀ (br bs xr xs : Except Exn Unit),
      "post_bsky_report" ∈ (run_main br bs xr xs).calls ∧
      "post_x_report" ∈ (run_main br bs xr xs).calls ∧
      (∀ e, (try_two "post_bsky_report" "post_bsky_resolution" br bs).2 = some e →
        e ∈ (run_main br bs xr xs).exceptions) ∧
      (∀ e, (try_two "post_x_report" "post_x_resolution" xr xs).2 = some e →
        tolerated_on_x e = false → e ∈ (run_main br bs xr xs).exceptions) ∧
      (run_main br bs xr xs).raised = (run_main br bs xr xs).exceptions.head? := by
  intro br bs xr xs
  cases br <;> cases bs <;> cases xr <;> cases xs <;>
    simp [run_main, try_two] <;>
    simp_all

/-! ## Claims about the image renderer -/

theorem compress_bound (p : Page) (fuel : Nat) :
    ∀ (q : Int) (buf b : List Nat), compress p fuel q buf = some b →
      b.length ≤ 950000 := by
  induction fuel with
  | zero =>
    intro q buf b h
    simp only [compress] at h
    split at h
    · exact absurd h (by simp)
    · cases h; omega
  | succ n ih =>
    intro q buf b h
    simp only [compress] at h
    split at h
    · exact ih _ _ _ h
    · cases h; omega

theorem compress_forever (p : Page) (hall : ∀ q, 950000 < (p.save q).length)
    (fuel : Nat) : ∀ (q : Int) (buf : List Nat), 950000 < buf.length →
      compress p fuel q buf = none := by
  induction fuel with
  | zero => intro q buf hbuf; simp [compress, hbuf]
  | succ n ih =>
    intro q buf hbuf
    simp only [compress, if_pos hbuf]
    exact ih _ _ (hall q)

theorem compress_succ_big {p : Page} {fuel : Nat} {q : Int} {buf : List Nat}
    (h : 950000 < buf.length) :
    compress p (fuel + 1) q buf = compress p fuel (q - 10) (p.save q) := by
  simp [compress, h]

theorem get_images_zero (doc : Doc) (fuel : Nat) (h : doc.page_count = 0)
    (page_nrs : List Nat) : get_images doc fuel page_nrs = some [] := by
  induction page_nrs with
  | nil => rfl
  | cons p ps ih =>
    have hp : pdf_to_image doc p fuel = some none := by simp [pdf_to_image, h]
    unfold get_images render_pages at ih ⊢
    rw [List.map_cons, hp]
    cases hm : seqOpt (List.map (fun q => pdf_to_image doc q fuel) ps) with
    | none => rw [hm] at ih; simp at ih
    | some xs =>
      rw [hm] at ih
      simp only [Option.map_some', Option.some.injEq] at ih
      simp [seqOpt, hm, ih]

/-- Claim C6: whenever pdf_to_image returns an image (rather than None or
not terminating), the returned byte string has length at most 950,000. -/
theorem claim_C6_image_size : ∀ (doc : Doc) (page fuel : Nat) (b : List Nat),
    pdf_to_image doc page fuel = some (some b) → b.length ≤ 950000 := by
  intro doc page fuel b h
  unfold pdf_to_image at h
  split at h
  · exact absurd h (by simp)
  · split at h
    · exact absurd h (by simp)
    · rename_i p hp
      split at h
      · exact absurd h (by simp)
      · rename_i buf hc
        simp only [Option.some.injEq] at h
        subst h
        exact compress_bound p fuel _ _ _ hc

/-- Witness for claim C6: a one-page document whose page encodes to an empty
byte string renders successfully, within the bound. -/
theorem claim_C6_witness :
    pdf_to_image docOne 0 0 = some (some []) ∧ ([] : List Nat).length ≤ 950000 :=
  ⟨rfl, claim_C6_image_size docOne 0 0 [] rfl⟩

/-- Claim C7 counterexample: the re-encoding loop has no quality floor. With
a page that stays at 950,001 bytes at every quality, the loop at quality 0
(already below the claimed floor of 1) re-encodes and continues at quality
-10 instead of clamping or accepting the oversized buffer, and starting from
quality 100 it is still looping after 50 iterations. -/
theorem pBig_save_big (q : Int) : 950000 < (pBig.save q).length := by
  show 950000 < (List.replicate 950001 (0 : Nat)).length
  rw [List.length_replicate]
  norm_num

theorem claim_C7_counterexample :
    compress pBig (0 + 1) 0 (pBig.save 0) = compress pBig 0 (-10) (pBig.save 0) ∧
    ((-10 : Int) < 1) ∧
    compress pBig 50 100 (pBig.save 100) = none := by
  have h1 := @compress_succ_big pBig 0 0 (pBig.save 0) (pBig_save_big 0)
  have h2 : (0 : Int) - 10 = -10 := by norm_num
  rw [h2] at h1
  exact ⟨h1, by norm_num,
    compress_forever pBig pBig_save_big 50 100 _ (pBig_save_big 100)⟩

/-- Claim C7 (amended): the loop has no lower bound on the quality; whenever
the encoder's output exceeds the 950,000-byte ceiling at every quality, the
loop never finishes, for any amount of fuel. -/
theorem claim_C7_amended (p : Page) (fuel : Nat) (q : Int) (buf : List Nat)
    (hall : ∀ q', 950000 < (p.save q').length) (hbuf : 950000 < buf.length) :
    compress p fuel q buf = none :=
  compress_forever p hall fuel q buf hbuf

/-- Witness for claim C7 (amended): instantiated with the constant
950,001-byte encoder. -/
theorem claim_C7_witness :
    (∀ q' : Int, 950000 < (pBig.save q').length) ∧
    compress pBig 7 100 (List.replicate 950001 0) = none :=
  ⟨pBig_save_big,
    claim_C7_amended pBig 7 100 (List.replicate 950001 0) pBig_save_big
      (pBig_save_big 0)⟩

/-- Claim C2 counterexample: for a zero-page PDF and requested pages [0, 1],
the per-page stage does produce None for each page, but get_images filters
the Nones out and returns the empty list, not a two-element list of None. -/
theorem claim_C2_counterexample :
    render_pages docZero 0 [0, 1] = [some none, some none] ∧
    get_images docZero 0 [0, 1] = some [] ∧
    (0 : Nat) ≠ ([0, 1] : List Nat).length :=
  ⟨rfl, rfl, by norm_num⟩

/-- Claim C2 (amended): the per-page stage produces exactly one outcome per
requested page index, None for a page whose rendering failed, without
aborting sibling pages; get_images then drops the None entries, returning
only the successfully rendered images in order; for a zero-page PDF
get_images returns the empty list. -/
theorem claim_C2_amended (doc : Doc) (fuel : Nat) (page_nrs : List Nat) :
    (render_pages doc fuel page_nrs).length = page_nrs.length ∧
    (∀ (i : Nat) (h1 : i < (render_pages doc fuel page_nrs).length)
        (h2 : i < page_nrs.length),
      (render_pages doc fuel page_nrs)[i] = pdf_to_image doc page_nrs[i] fuel) ∧
    (doc.page_count = 0 → get_images doc fuel page_nrs = some []) := by
  refine ⟨by simp [render_pages], ?_, fun h => get_images_zero doc fuel h page_nrs⟩
  intro i h1 h2
  simp [render_pages]

/-- Witness for claim C2 (amended): the zero-page document with two requested
pages. -/
theorem claim_C2_witness :
    docZero.page_count = 0 ∧
    (render_pages docZero 3 [0, 1]).length = [0, 1].length ∧
    get_images docZero 3 [0, 1] = some [] :=
  ⟨rfl, (claim_C2_amended docZero 3 [0, 1]).1,
    (claim_C2_amended docZero 3 [0, 1]).2.2 rfl⟩

/-- Witness for claim C9: with the bsky platform failing with an unexpected
exception, the x platform is still attempted and the exception is collected. -/
theorem claim_C9_witness :
    "post_x_report" ∈ (run_main (Except.error (Exn.other "boom")) (Except.ok ())
        (Except.ok ()) (Except.ok ())).calls ∧
    Exn.other "boom" ∈ (run_main (Except.error (Exn.other "boom")) (Except.ok ())
        (Except.ok ()) (Except.ok ())).exceptions := by
  refine ⟨(claim_C9_platform_isolation _ _ _ _).2.1, ?_⟩
  exact (claim_C9_platform_isolation (Except.error (Exn.other "boom")) (Except.ok ())
    (Except.ok ()) (Except.ok ())).2.2.1 (Exn.other "boom") rfl

end Untweeted
